import Mathlib

/-
Verification development for the Ankibyte frontend (a browser single-page
application).  The definitions below are a shallow embedding of the state
and the handlers of the main component `src/src/App.tsx` (the current
variant of the app), of the older variant of the component
(`src/unnamed/part_001`, embedded in namespace `V1` where a claim depends
on it), and of the embedding scatter-plot component
(`src/unnamed/part_002`, `EmbeddingVisualization`).

Conventions of the embedding:
- JSON numbers are modelled as exact rationals (`ℚ`).
- A JSON field that may be missing is an `Option`; the JavaScript
  `a || b` fallback on strings (which also replaces the empty string)
  is the function `jsOr`.
- A `File` keeps the one field the embedded code reads: its `name`.
- The component state is the record `AppState`; every `setXxx` call of a
  handler becomes a record update, applied in the source order.
- Network effects are made explicit: the outcome of a fetch is an input
  of the function that consumed it (`FetchOutcome`, `SubmitResult`).
-/

namespace Ankibyte

/-- A user supplied file; the embedded handlers only read `name`. -/
structure File where
  name : String
deriving DecidableEq, Repr

/-- The two upload slots of `handleFileUpload` (`"anki" | "study"`). -/
inductive FileType
  | anki
  | study
deriving DecidableEq, Repr

/-- Top-level numeric fields of the `statistics` object of a response
(interface `ProcessingResponse` in App.tsx).  The embedded logic only
tests the presence of the object, so the nested `deck_info` is omitted. -/
structure Statistics where
  total_cards : ℚ
  high_relevance : ℚ
  medium_relevance : ℚ
  low_relevance : ℚ
deriving DecidableEq, Repr

/-- The nested `progress_data` object of a poll-status response
(App.tsx lines 115-133). -/
structure ProgressData where
  progress : Option ℚ
  phase : Option String
  estimated_time_remaining : Option ℚ
deriving DecidableEq, Repr

/-- A poll-status response, with the fields `pollJobStatus` reads. -/
structure StatusResponse where
  status : Option String
  progress_data : Option ProgressData
  error_message : Option String
  statistics : Option Statistics
deriving DecidableEq, Repr

/-- The JSON body of a successful submission POST, with the fields the
submit handler and the polling callback read. -/
structure SubmitResponse where
  task_id : Option String
  statistics : Option Statistics
  download_url : Option String
deriving DecidableEq, Repr

/-- Value stored in `processingResults`: either a poll-status response
(set inside `pollJobStatus` when `data.statistics` is present) or the
submission response (set by the interval callback on completion). -/
inductive ResultsPayload
  | fromPoll (r : StatusResponse)
  | fromSubmit (r : SubmitResponse)
deriving DecidableEq, Repr

/-- The `useState` hooks of the `App` component, App.tsx lines 63-75. -/
structure AppState where
  ankiFile : Option File
  studyMaterial : Option File
  processing : Bool
  progress : ℚ
  error : Option String
  success : Option String
  estimatedTime : Option ℚ
  jobId : Option String
  currentPhase : Option String
  customTag : String
  selectedModel : String
  processingResults : Option ResultsPayload
  showResults : Bool
deriving DecidableEq, Repr

/-- The state at mount: the initial values of the `useState` hooks. -/
def initialState : AppState :=
  { ankiFile := none
    studyMaterial := none
    processing := false
    progress := 0
    error := none
    success := none
    estimatedTime := none
    jobId := none
    currentPhase := none
    customTag := ""
    selectedModel := "text-embedding-3-small"
    processingResults := none
    showResults := false }

/-- JavaScript `a || b` for a possibly missing string `a`: the fallback
`b` is used when `a` is absent, and also when `a` is the empty string
(the empty string is falsy). -/
def jsOr (a : Option String) (b : String) : String :=
  match a with
  | some s => if s = "" then b else s
  | none => b

/-- JavaScript `s.endsWith(post)`, as a suffix test on the characters. -/
def strEndsWith (s post : String) : Bool :=
  post.data.isSuffixOf s.data

/-- `handleFileUpload` (App.tsx lines 193-213): clear error and success,
then accept the file into its slot when the name has the expected
extension, otherwise set the rejection message and leave both slots
unchanged. -/
def handleFileUpload (s : AppState) (file : Option File) (fileType : FileType) : AppState :=
  let s0 := { s with error := none, success := none }
  match file with
  | none => s0
  | some f =>
    match fileType with
    | FileType.anki =>
      if strEndsWith f.name ".apkg" then { s0 with ankiFile := some f }
      else { s0 with error := some "Please upload a valid Anki deck file (.apkg)" }
    | FileType.study =>
      if strEndsWith f.name ".pdf" then { s0 with studyMaterial := some f }
      else { s0 with error := some "Please upload a PDF study material" }

/-- Membership of the character class `[a-zA-Z0-9]` of the sanitizer
regex, by code point as in JavaScript. -/
def isTagChar (c : Char) : Bool :=
  (97 ≤ c.toNat && c.toNat ≤ 122) ||
  (65 ≤ c.toNat && c.toNat ≤ 90) ||
  (48 ≤ c.toNat && c.toNat ≤ 57)

/-- One character of `value.replace(/[^a-zA-Z0-9]/g, "_")`. -/
def sanitizeChar (c : Char) : Char :=
  if isTagChar c then c else '_'

/-- `value.replace(/[^a-zA-Z0-9]/g, "_")` (App.tsx line 216): the regex
replaces each single character outside `[a-zA-Z0-9]`, so the whole call
is a character-wise map. -/
def sanitizeTag (input : String) : String :=
  ⟨input.data.map sanitizeChar⟩

/-- `handleTagChange` (App.tsx lines 215-218). -/
def handleTagChange (s : AppState) (input : String) : AppState :=
  { s with customTag := sanitizeTag input }

/-- `handleModelChange` (App.tsx lines 220-222). -/
def handleModelChange (s : AppState) (value : String) : AppState :=
  { s with selectedModel := value }

/-- `resetState` (App.tsx lines 162-172). -/
def resetState (s : AppState) : AppState :=
  { s with ankiFile := none, studyMaterial := none, progress := 0, error := none,
           success := none, estimatedTime := none, jobId := none, currentPhase := none,
           customTag := "" }

/-- The click handler of the results-view button (App.tsx lines 529-540):
`setShowResults(false); setProcessingResults(null); resetState()`. -/
def processAnotherDeck (s : AppState) : AppState :=
  resetState { s with showResults := false, processingResults := none }

/-- The multipart payload of the submission POST (App.tsx lines 244-248). -/
structure FormData where
  anki_file : File
  study_material : File
  custom_tag : String
  model : String
deriving DecidableEq, Repr

/-- Result of the validation prelude of `handleSubmit`: either an early
return with the updated state (no network request issued), or the state
right after `setProcessing(true)` etc. together with the posted payload. -/
inductive SubmitPhase1
  | rejected (s : AppState)
  | posted (s : AppState) (fd : FormData)
deriving DecidableEq, Repr

/-- The part of `handleSubmit` before the network call
(App.tsx lines 224-248): the two validation guards, then the state
updates and the construction of the form data. -/
def handleSubmitPhase1 (s : AppState) : SubmitPhase1 :=
  match s.ankiFile, s.studyMaterial with
  | some a, some m =>
    if s.customTag = "" then
      SubmitPhase1.rejected { s with error := some "Please enter a tag prefix for your cards" }
    else
      SubmitPhase1.posted
        { s with processing := true, progress := 0, error := none, success := none,
                 currentPhase := some "Initializing", showResults := false,
                 processingResults := none, estimatedTime := none }
        { anki_file := a, study_material := m, custom_tag := s.customTag, model := s.selectedModel }
  | _, _ =>
    SubmitPhase1.rejected { s with error := some "Please upload both an Anki deck and study material" }

/-- Outcome of the submission POST as seen by `handleSubmit`'s
`try`/`catch`: a transport failure (fetch rejected or `response.json()`
threw; `msg` is the `Error` message when the thrown value is an `Error`),
a response with a non-ok HTTP status, or a parsed JSON body. -/
inductive SubmitResult
  | netFail (msg : Option String)
  | httpError (status : Nat)
  | ok (d : SubmitResponse)
deriving DecidableEq, Repr

/-- `handleSubmit` (App.tsx lines 224-300), as the state after the handler
finished for the given network outcome.  On a non-ok status the thrown
message is the interpolation of the status code; on `ok`, a truthy
`task_id` is stored (the polling interval then starts); on a falsy
`task_id` nothing further happens. -/
def handleSubmit (s : AppState) (net : SubmitResult) : AppState :=
  match handleSubmitPhase1 s with
  | SubmitPhase1.rejected s' => s'
  | SubmitPhase1.posted s' _ =>
    match net with
    | SubmitResult.netFail msg =>
      { s' with error := some (msg.getD "An error occurred"), processing := false }
    | SubmitResult.httpError status =>
      { s' with error := some ("Server error: " ++ toString status), processing := false }
    | SubmitResult.ok d =>
      match d.task_id with
      | some tid => if tid = "" then s' else { s' with jobId := some tid }
      | none => s'

/-- The `if (data.progress_data)` block of `pollJobStatus`
(App.tsx lines 115-133): set progress from
`parseFloat(progress || 0)`, set the phase when truthy, and set the
time estimate when the parsed value is not negative. -/
def applyProgressData (pd : ProgressData) (s : AppState) : AppState :=
  let s1 := { s with progress := pd.progress.getD 0 }
  let s2 :=
    match pd.phase with
    | some p => if p = "" then s1 else { s1 with currentPhase := some p }
    | none => s1
  if 0 ≤ pd.estimated_time_remaining.getD 0 then
    { s2 with estimatedTime := some (pd.estimated_time_remaining.getD 0) }
  else s2

/-- Apply the `progress_data` updates of a response when the object is
present. -/
def updateFromProgress (data : StatusResponse) (s : AppState) : AppState :=
  match data.progress_data with
  | some pd => applyProgressData pd s
  | none => s

/-- The completed branch of `pollJobStatus` (App.tsx lines 136-147):
success message, processing flag cleared, results shown; when the
response carries `statistics` it is also stored as the results payload. -/
def completedUpdate (data : StatusResponse) (s1 : AppState) : AppState :=
  let s2 := { s1 with success := some "Processing completed successfully!",
                      processing := false, showResults := true }
  match data.statistics with
  | some _ => { s2 with processingResults := some (ResultsPayload.fromPoll data) }
  | none => s2

/-- The body of `pollJobStatus` after a successfully parsed response
(App.tsx lines 111-155).  Returns the new state and the returned boolean
(`true` means a terminal response).  The completion test is
`data.status === "COMPLETED" || (data.progress_data &&
data.progress_data.progress === 100)`; the failure test is
`data.status === "FAILED"`, with the displayed message
`data.error_message || "Processing failed"`. -/
def pollStep (data : StatusResponse) (s : AppState) : AppState × Bool :=
  if data.status = some "COMPLETED" ∨ data.progress_data.bind ProgressData.progress = some (100 : ℚ) then
    (completedUpdate data (updateFromProgress data s), true)
  else if data.status = some "FAILED" then
    ({ updateFromProgress data s with
        error := some (jsOr data.error_message "Processing failed"), processing := false }, true)
  else
    (updateFromProgress data s, false)

/-- Outcome of the fetch inside `pollJobStatus`: a parsed JSON response,
or a transport failure (the fetch rejected or `response.json()` threw). -/
inductive FetchOutcome
  | ok (r : StatusResponse)
  | fail
deriving DecidableEq, Repr

/-- `pollJobStatus` (App.tsx lines 107-160): the whole body is wrapped in
`try`/`catch`; a transport failure reaches the catch, which only logs and
returns `false`, so the state is unchanged and the tick is skipped. -/
def pollJobStatus (o : FetchOutcome) (s : AppState) : AppState × Bool :=
  match o with
  | FetchOutcome.ok r => pollStep r s
  | FetchOutcome.fail => (s, false)

/-- One tick of the polling interval: either `pollJobStatus` runs to
completion on some fetch outcome, or it throws to the interval callback
(the defensive outer catch of App.tsx lines 281-286). -/
inductive Tick
  | fetch (o : FetchOutcome)
  | callbackThrow
deriving DecidableEq, Repr

/-- The interval callback of `handleSubmit` (App.tsx lines 272-287), for
one tick: on a terminal return the interval is cleared and the submit
response is stored as the results payload; when `pollJobStatus` throws,
the interval is cleared, the generic message is shown and processing is
cleared.  The boolean is `true` when the interval was cleared. -/
def pollCallbackStep (d : SubmitResponse) (t : Tick) (s : AppState) : AppState × Bool :=
  match t with
  | Tick.fetch o =>
    let pr := pollJobStatus o s
    if pr.2 then ({ pr.1 with processingResults := some (ResultsPayload.fromSubmit d) }, true)
    else (pr.1, false)
  | Tick.callbackThrow =>
    ({ s with error := some "Error checking progress", processing := false }, true)

/-- The life of one polling interval over a schedule of ticks: each
processed tick issues one status request; the loop stops when the
callback cleared the interval.  Returns the final state and the number of
status requests issued. -/
def pollLoop (d : SubmitResponse) : List Tick → AppState → AppState × Nat
  | [], s => (s, 0)
  | t :: ts, s =>
    if (pollCallbackStep d t s).2 then ((pollCallbackStep d t s).1, 1)
    else ((pollLoop d ts (pollCallbackStep d t s).1).1,
          (pollLoop d ts (pollCallbackStep d t s).1).2 + 1)

/-- The user and network events that drive the component's state.  A poll
tick carries the submit response captured by the interval callback's
closure.  The event list over-approximates the schedules the browser can
produce, which is sound for the invariants proved below. -/
inductive Event
  | fileUpload (f : Option File) (ft : FileType)
  | tagChange (input : String)
  | modelChange (v : String)
  | submit (net : SubmitResult)
  | pollTick (d : SubmitResponse) (t : Tick)
  | resetClick
deriving DecidableEq, Repr

/-- The state transition of one event. -/
def step (s : AppState) (e : Event) : AppState :=
  match e with
  | Event.fileUpload f ft => handleFileUpload s f ft
  | Event.tagChange input => handleTagChange s input
  | Event.modelChange v => handleModelChange s v
  | Event.submit net => handleSubmit s net
  | Event.pollTick d t => (pollCallbackStep d t s).1
  | Event.resetClick => processAnotherDeck s

/-- The state reached from mount after a list of events. -/
def runEvents (es : List Event) : AppState :=
  es.foldl step initialState

namespace V1

/-- The `error` and `detail` fields of a parsed error body
(`src/unnamed/part_001`, lines 164-166). -/
structure ErrObj where
  error : Option String
  detail : Option String
deriving DecidableEq, Repr

/-- The inner `try` block of the non-ok branch of the older variant's
`handleSubmit` (`src/unnamed/part_001`, lines 164-167): `JSON.parse` the
body text, then throw an `Error` carrying
`parsedError.error || parsedError.detail || "Processing failed"`.
`parsed` is the outcome of `JSON.parse` (`none` when it threw a
`SyntaxError`).  Every path of the block ends in a throw, so the result
is always an exception. -/
def submitNonOkTryBlock (parsed : Option ErrObj) : Except String String :=
  match parsed with
  | none => Except.error "SyntaxError"
  | some o => Except.error (Ankibyte.jsOr o.error (Ankibyte.jsOr o.detail "Processing failed"))

/-- The whole non-ok branch (`src/unnamed/part_001`, lines 161-170): the
inner `catch (e)` receives every exception of its own `try` block -
including the freshly constructed `Error` with the extracted detail - and
throws `Server error: ${errorData}` with the raw body text instead. -/
def submitNonOkMessage (body : String) (parsed : Option ErrObj) : String :=
  match submitNonOkTryBlock parsed with
  | Except.ok m => m
  | Except.error _ => "Server error: " ++ body

end V1

/-- Relevance band of a plotted point
(`src/unnamed/part_003`, `RelevanceType`). -/
inductive RelevanceType
  | high
  | medium
  | low
  | document
deriving DecidableEq, Repr

/-- One card's datum handed to `EmbeddingVisualization`
(`src/unnamed/part_003`, `DataPoint`, required fields). -/
structure DataPoint where
  cardId : String
  relevance : RelevanceType
  embedding : List ℚ
  similarity : ℚ
deriving DecidableEq, Repr

/-- A plotted point (`src/unnamed/part_003`, `ProcessedDataPoint`). -/
structure ProcessedDataPoint where
  cardId : String
  relevance : RelevanceType
  embedding : List ℚ
  similarity : ℚ
  x : ℚ
  y : ℚ
  z : ℚ
deriving DecidableEq, Repr

/-- The fixed band thresholds of the scatter plot
(`src/unnamed/part_002`, `THRESHOLDS`). -/
structure Thresholds where
  high : ℚ
  medium : ℚ
deriving DecidableEq, Repr

/-- `THRESHOLDS = { high: 0.8, medium: 0.5 }`. -/
def THRESHOLDS : Thresholds :=
  { high := 0.8, medium := 0.5 }

/-- The card mapping of the `processedData` memo
(`src/unnamed/part_002`, lines 78-83): spread the point and set
`x = y = z = similarity * 100`. -/
def processPoint (p : DataPoint) : ProcessedDataPoint :=
  { cardId := p.cardId, relevance := p.relevance, embedding := p.embedding,
    similarity := p.similarity,
    x := p.similarity * 100, y := p.similarity * 100, z := p.similarity * 100 }

/-- The fixed document reference point
(`src/unnamed/part_002`, lines 86-94). -/
def documentPoint (documentEmbedding : List ℚ) : ProcessedDataPoint :=
  { cardId := "document", relevance := RelevanceType.document,
    embedding := documentEmbedding, similarity := 1, x := 100, y := 100, z := 100 }

/-- The `processedData` memo of `EmbeddingVisualization`
(`src/unnamed/part_002`, lines 74-97): the empty input short-circuits to
the empty list; otherwise the mapped cards with the document point
appended. -/
def processedData (data : List DataPoint) (documentEmbedding : List ℚ) : List ProcessedDataPoint :=
  if data.length = 0 then []
  else data.map processPoint ++ [documentPoint documentEmbedding]

/-- One shaded relevance zone of the scatter plot: the two x bounds of a
`ReferenceArea`. -/
structure RefArea where
  x1 : ℚ
  x2 : ℚ
deriving DecidableEq, Repr

/-- The three zones of `renderReferenceAreas`
(`src/unnamed/part_002`, lines 99-123), top zone first. -/
def referenceAreas : List RefArea :=
  [ { x1 := THRESHOLDS.high * 100, x2 := 100 },
    { x1 := THRESHOLDS.medium * 100, x2 := THRESHOLDS.high * 100 },
    { x1 := 0, x2 := THRESHOLDS.medium * 100 } ]

/-- The extension `handleFileUpload` expects for the given slot. -/
def expectedExt (ft : FileType) : String :=
  match ft with
  | FileType.anki => ".apkg"
  | FileType.study => ".pdf"

/-- The rejection message `handleFileUpload` shows for the given slot. -/
def rejectMsg (ft : FileType) : String :=
  match ft with
  | FileType.anki => "Please upload a valid Anki deck file (.apkg)"
  | FileType.study => "Please upload a PDF study material"

/-- Every character of the tag is a letter, a digit or an underscore
(the regular expression of the tag-prefix invariant). -/
def isTagSafe (tag : String) : Bool :=
  tag.data.all fun c => isTagChar c || c == '_'

/-- A state ready to submit: both files selected and a tag entered. -/
def readyState : AppState :=
  { initialState with
      ankiFile := some { name := "deck.apkg" },
      studyMaterial := some { name := "notes.pdf" },
      customTag := "cardio" }

/-- A concrete successful submission response. -/
def dSubmit : SubmitResponse :=
  { task_id := some "job-1",
    statistics := some { total_cards := 10, high_relevance := 4, medium_relevance := 3, low_relevance := 3 },
    download_url := some "http://localhost:8000/media/out.apkg" }

/-- A concrete completed poll-status response. -/
def rCompleted : StatusResponse :=
  { status := some "COMPLETED",
    progress_data := some { progress := some 100, phase := some "Finalizing", estimated_time_remaining := some 0 },
    error_message := none,
    statistics := none }

/-- A full run from mount to the results view: change the model, enter a
tag, upload both files, submit, receive the terminal poll response. -/
def completedRunEvents : List Event :=
  [ Event.modelChange "text-embedding-3-large",
    Event.tagChange "cardio",
    Event.fileUpload (some { name := "deck.apkg" }) FileType.anki,
    Event.fileUpload (some { name := "notes.pdf" }) FileType.study,
    Event.submit (SubmitResult.ok dSubmit),
    Event.pollTick dSubmit (Tick.fetch (FetchOutcome.ok rCompleted)) ]

/-- A response whose status is FAILED but whose progress is 100. -/
def rFailedProgress100 : StatusResponse :=
  { status := some "FAILED",
    progress_data := some { progress := some 100, phase := none, estimated_time_remaining := none },
    error_message := some "bad pdf",
    statistics := none }

/-- A FAILED response carrying the empty string as its error message. -/
def rFailedEmptyMsg : StatusResponse :=
  { status := some "FAILED",
    progress_data := none,
    error_message := some "",
    statistics := none }

/-- The FAILED response of the spec's example, with message `bad pdf`. -/
def rFailedBadPdf : StatusResponse :=
  { status := some "FAILED",
    progress_data := none,
    error_message := some "bad pdf",
    statistics := none }

/-- A concrete card datum for the scatter plot. -/
def samplePoint : DataPoint :=
  { cardId := "c1", relevance := RelevanceType.high, embedding := [], similarity := 9/10 }

/-! ### Helper lemmas -/

theorem completedUpdate_success (d : StatusResponse) (s1 : AppState) :
    (completedUpdate d s1).success = some "Processing completed successfully!" := by
  unfold completedUpdate
  cases d.statistics <;> rfl

theorem completedUpdate_processing (d : StatusResponse) (s1 : AppState) :
    (completedUpdate d s1).processing = false := by
  unfold completedUpdate
  cases d.statistics <;> rfl

theorem completedUpdate_showResults (d : StatusResponse) (s1 : AppState) :
    (completedUpdate d s1).showResults = true := by
  unfold completedUpdate
  cases d.statistics <;> rfl

theorem completedUpdate_customTag (d : StatusResponse) (s1 : AppState) :
    (completedUpdate d s1).customTag = s1.customTag := by
  unfold completedUpdate
  cases d.statistics <;> rfl

theorem applyProgressData_customTag (pd : ProgressData) (s : AppState) :
    (applyProgressData pd s).customTag = s.customTag := by
  unfold applyProgressData
  cases pd.phase <;> dsimp only <;> (repeat' split) <;> rfl

theorem updateFromProgress_customTag (d : StatusResponse) (s : AppState) :
    (updateFromProgress d s).customTag = s.customTag := by
  unfold updateFromProgress
  cases d.progress_data with
  | none => rfl
  | some pd => exact applyProgressData_customTag pd s

theorem pollStep_customTag (d : StatusResponse) (s : AppState) :
    (pollStep d s).1.customTag = s.customTag := by
  unfold pollStep
  split
  · exact (completedUpdate_customTag d _).trans (updateFromProgress_customTag d s)
  · split
    · exact updateFromProgress_customTag d s
    · exact updateFromProgress_customTag d s

theorem pollCallbackStep_customTag (d : SubmitResponse) (t : Tick) (s : AppState) :
    (pollCallbackStep d t s).1.customTag = s.customTag := by
  cases t with
  | fetch o =>
    cases o with
    | ok r =>
      unfold pollCallbackStep pollJobStatus
      dsimp only
      split
      · exact pollStep_customTag r s
      · exact pollStep_customTag r s
    | fail => rfl
  | callbackThrow => rfl

theorem handleSubmitPhase1_cases (s : AppState) :
    (∃ s', handleSubmitPhase1 s = SubmitPhase1.rejected s' ∧ s'.customTag = s.customTag) ∨
    (∃ s' fd, handleSubmitPhase1 s = SubmitPhase1.posted s' fd ∧ s'.customTag = s.customTag) := by
  unfold handleSubmitPhase1
  cases ha : s.ankiFile <;> cases hm : s.studyMaterial <;> dsimp only
  · exact Or.inl ⟨_, rfl, rfl⟩
  · exact Or.inl ⟨_, rfl, rfl⟩
  · exact Or.inl ⟨_, rfl, rfl⟩
  · by_cases htag : s.customTag = ""
    · rw [if_pos htag]
      exact Or.inl ⟨_, rfl, rfl⟩
    · rw [if_neg htag]
      exact Or.inr ⟨_, _, rfl, rfl⟩

theorem handleSubmit_customTag (s : AppState) (net : SubmitResult) :
    (handleSubmit s net).customTag = s.customTag := by
  rcases handleSubmitPhase1_cases s with ⟨s', hs, htg⟩ | ⟨s', fd, hs, htg⟩
  · simp [handleSubmit, hs, htg]
  · cases net with
    | netFail msg => simp [handleSubmit, hs, htg]
    | httpError status => simp [handleSubmit, hs, htg]
    | ok d =>
      cases hd : d.task_id with
      | none => simp [handleSubmit, hs, hd, htg]
      | some tid =>
        by_cases ht : tid = "" <;> simp [handleSubmit, hs, hd, ht, htg]

theorem handleFileUpload_customTag (s : AppState) (f : Option File) (ft : FileType) :
    (handleFileUpload s f ft).customTag = s.customTag := by
  unfold handleFileUpload
  cases f with
  | none => rfl
  | some f => cases ft <;> dsimp only <;> (repeat' split) <;> rfl

theorem sanitizeTag_safe (input : String) : isTagSafe (sanitizeTag input) = true := by
  unfold isTagSafe sanitizeTag
  rw [show (String.mk (input.data.map sanitizeChar)).data = input.data.map sanitizeChar from rfl]
  rw [List.all_eq_true]
  intro c hc
  rcases List.mem_map.mp hc with ⟨a, _, rfl⟩
  by_cases h : isTagChar a = true
  · simp [sanitizeChar, h]
  · simp [sanitizeChar, h]

theorem step_preserves_tagSafe (s : AppState) (e : Event)
    (h : isTagSafe s.customTag = true) : isTagSafe (step s e).customTag = true := by
  cases e with
  | fileUpload f ft =>
    show isTagSafe (handleFileUpload s f ft).customTag = true
    rw [handleFileUpload_customTag]
    exact h
  | tagChange input =>
    exact sanitizeTag_safe input
  | modelChange v =>
    exact h
  | submit net =>
    show isTagSafe (handleSubmit s net).customTag = true
    rw [handleSubmit_customTag]
    exact h
  | pollTick d t =>
    show isTagSafe (pollCallbackStep d t s).1.customTag = true
    rw [pollCallbackStep_customTag]
    exact h
  | resetClick =>
    show isTagSafe (processAnotherDeck s).customTag = true
    exact (by decide : isTagSafe "" = true)

theorem foldl_preserves_tagSafe (es : List Event) :
    ∀ s : AppState, isTagSafe s.customTag = true →
      isTagSafe (es.foldl step s).customTag = true := by
  induction es with
  | nil => intro s h; exact h
  | cons e es ih => intro s h; exact ih (step s e) (step_preserves_tagSafe s e h)

theorem pollLoop_cons_stop (d : SubmitResponse) (t : Tick) (ts : List Tick) (s : AppState)
    (h : (pollCallbackStep d t s).2 = true) :
    pollLoop d (t :: ts) s = ((pollCallbackStep d t s).1, 1) := by
  simp only [pollLoop]
  rw [if_pos h]

theorem pollLoop_cons_go (d : SubmitResponse) (t : Tick) (ts : List Tick) (s : AppState)
    (h : (pollCallbackStep d t s).2 = false) :
    pollLoop d (t :: ts) s =
      ((pollLoop d ts (pollCallbackStep d t s).1).1,
       (pollLoop d ts (pollCallbackStep d t s).1).2 + 1) := by
  simp only [pollLoop]
  rw [if_neg (by simp [h])]

theorem pollLoop_stops (d : SubmitResponse) (r : StatusResponse) (ts2 : List Tick)
    (hdone : ∀ s : AppState, (pollStep r s).2 = true) :
    ∀ (ts1 : List Tick) (s : AppState),
      (pollLoop d (ts1 ++ Tick.fetch (FetchOutcome.ok r) :: ts2) s).2 ≤ ts1.length + 1 := by
  intro ts1
  induction ts1 with
  | nil =>
    intro s
    have hstop : (pollCallbackStep d (Tick.fetch (FetchOutcome.ok r)) s).2 = true := by
      simp [pollCallbackStep, pollJobStatus, hdone s]
    rw [List.nil_append, pollLoop_cons_stop d _ ts2 s hstop]
    simp
  | cons t ts ih =>
    intro s
    rw [List.cons_append]
    cases hb : (pollCallbackStep d t s).2 with
    | false =>
      rw [pollLoop_cons_go d t _ s hb]
      have h1 := ih (pollCallbackStep d t s).1
      simp only [List.length_cons]
      omega
    | true =>
      rw [pollLoop_cons_stop d t _ s hb]
      simp only [List.length_cons]
      omega

/-! ### Claim theorems -/

/-- C1: a poll-status response that reports status COMPLETED, or whose
`progress_data.progress` is exactly 100, makes `pollJobStatus` take the
completed branch (success message set, processing cleared, results shown,
terminal return value), and in the polling loop no status request is
issued after that response: the total number of requests is bounded by
the position of that response.  The two completion signals are a single
disjunction hypothesis, so either one alone yields the same transition. -/
theorem c1_completion_terminates_polling (s : AppState) (d : SubmitResponse)
    (r : StatusResponse) (ts1 ts2 : List Tick)
    (h : r.status = some "COMPLETED" ∨
         r.progress_data.bind ProgressData.progress = some (100 : ℚ)) :
    (pollStep r s).2 = true ∧
    (pollStep r s).1.success = some "Processing completed successfully!" ∧
    (pollStep r s).1.processing = false ∧
    (pollStep r s).1.showResults = true ∧
    (pollLoop d (ts1 ++ Tick.fetch (FetchOutcome.ok r) :: ts2) s).2 ≤ ts1.length + 1 := by
  have hdone : ∀ s' : AppState, (pollStep r s').2 = true := by
    intro s'
    unfold pollStep
    rw [if_pos h]
  refine ⟨hdone s, ?_, ?_, ?_, pollLoop_stops d r ts2 hdone ts1 s⟩
  · unfold pollStep
    rw [if_pos h]
    exact completedUpdate_success r _
  · unfold pollStep
    rw [if_pos h]
    exact completedUpdate_processing r _
  · unfold pollStep
    rw [if_pos h]
    exact completedUpdate_showResults r _

/-- C1 witness: the concrete completed response terminates the loop. -/
theorem c1_witness :
    (pollStep rCompleted initialState).2 = true ∧
    (pollStep rCompleted initialState).1.success = some "Processing completed successfully!" ∧
    (pollStep rCompleted initialState).1.processing = false ∧
    (pollStep rCompleted initialState).1.showResults = true ∧
    (pollLoop dSubmit ([] ++ Tick.fetch (FetchOutcome.ok rCompleted) :: []) initialState).2 ≤
      ([] : List Tick).length + 1 :=
  c1_completion_terminates_polling initialState dSubmit rCompleted [] [] (Or.inl rfl)

/-- C2: a transport-level failure during a poll tick is swallowed by the
catch inside `pollJobStatus`: the state is unchanged, the return value is
not terminal, the interval callback does not clear the interval, and the
loop issues the next status request on the following tick from the same
state.  The interval is cancelled with the generic message
`Error checking progress` exactly on the tick where `pollJobStatus`
throws to its caller (the outer catch of the interval callback). -/
theorem c2_transport_failure_nonfatal (d : SubmitResponse) (s : AppState) (ts : List Tick) :
    pollJobStatus FetchOutcome.fail s = (s, false) ∧
    pollCallbackStep d (Tick.fetch FetchOutcome.fail) s = (s, false) ∧
    pollLoop d (Tick.fetch FetchOutcome.fail :: ts) s =
      ((pollLoop d ts s).1, (pollLoop d ts s).2 + 1) ∧
    pollCallbackStep d Tick.callbackThrow s =
      ({ s with error := some "Error checking progress", processing := false }, true) := by
  refine ⟨rfl, rfl, ?_, rfl⟩
  rw [pollLoop_cons_go d (Tick.fetch FetchOutcome.fail) ts s rfl]
  rfl

/-- C3: evaluation of the submission error paths at the failing input.
In the older variant the message extracted from a parseable JSON body is
never surfaced: for every body and every parse outcome the shown message
is `Server error: ` followed by the raw body, because the inner throw of
the extracted detail is caught by its own catch block; in the current
variant only the numeric HTTP status is shown. -/
theorem c3_submit_error_detail_lost :
    (∀ (body : String) (parsed : Option V1.ErrObj),
       V1.submitNonOkMessage body parsed = "Server error: " ++ body) ∧
    V1.submitNonOkMessage "\x7b\"detail\": \"Invalid deck file\"\x7d"
        (some { error := none, detail := some "Invalid deck file" }) =
      "Server error: \x7b\"detail\": \"Invalid deck file\"\x7d" ∧
    (handleSubmit readyState (SubmitResult.httpError 503)).error = some "Server error: 503" := by
  refine ⟨?_, by decide, by decide⟩
  intro body parsed
  unfold V1.submitNonOkMessage V1.submitNonOkTryBlock
  cases parsed <;> rfl

/-- C4: when a file is missing or the tag prefix is empty, `handleSubmit`
returns in its validation prelude: one of the two validation messages is
set, the processing flag keeps its previous value, and the final state is
the same for every possible network outcome - no POST is issued. -/
theorem c4_validation_no_network (s : AppState)
    (h : s.ankiFile = none ∨ s.studyMaterial = none ∨ s.customTag = "") :
    ∃ s', handleSubmitPhase1 s = SubmitPhase1.rejected s' ∧
      (s'.error = some "Please upload both an Anki deck and study material" ∨
       s'.error = some "Please enter a tag prefix for your cards") ∧
      s'.processing = s.processing ∧
      (∀ net, handleSubmit s net = s') := by
  have key :
      handleSubmitPhase1 s =
        SubmitPhase1.rejected
          { s with error := some "Please upload both an Anki deck and study material" } ∨
      handleSubmitPhase1 s =
        SubmitPhase1.rejected
          { s with error := some "Please enter a tag prefix for your cards" } := by
    unfold handleSubmitPhase1
    rcases ha : s.ankiFile with _ | a
    · exact Or.inl rfl
    · rcases hm : s.studyMaterial with _ | m
      · exact Or.inl rfl
      · dsimp only
        rcases h with h | h | h
        · rw [ha] at h
          exact absurd h (by simp)
        · rw [hm] at h
          exact absurd h (by simp)
        · rw [if_pos h]
          exact Or.inr rfl
  rcases key with hk | hk
  · exact ⟨_, hk, Or.inl rfl, rfl, fun net => by simp [handleSubmit, hk]⟩
  · exact ⟨_, hk, Or.inr rfl, rfl, fun net => by simp [handleSubmit, hk]⟩

/-- C4 witness: at mount (no files selected) submission is rejected. -/
theorem c4_witness :
    ∃ s', handleSubmitPhase1 initialState = SubmitPhase1.rejected s' ∧
      (s'.error = some "Please upload both an Anki deck and study material" ∨
       s'.error = some "Please enter a tag prefix for your cards") ∧
      s'.processing = initialState.processing ∧
      (∀ net, handleSubmit initialState net = s') :=
  c4_validation_no_network initialState (Or.inl rfl)

/-- C5: a file whose name lacks the expected extension is rejected by
`handleFileUpload` - both selections unchanged, the slot's message set -
while a file with the matching extension is stored in its slot, the other
slot unchanged, and the error cleared. -/
theorem c5_file_extension_validation (s : AppState) (f : File) (ft : FileType) :
    (strEndsWith f.name (expectedExt ft) = false →
      ((handleFileUpload s (some f) ft).ankiFile = s.ankiFile ∧
       (handleFileUpload s (some f) ft).studyMaterial = s.studyMaterial ∧
       (handleFileUpload s (some f) ft).error = some (rejectMsg ft))) ∧
    (strEndsWith f.name (expectedExt ft) = true →
      ((handleFileUpload s (some f) ft).error = none ∧
       (match ft with
        | FileType.anki =>
          (handleFileUpload s (some f) ft).ankiFile = some f ∧
          (handleFileUpload s (some f) ft).studyMaterial = s.studyMaterial
        | FileType.study =>
          (handleFileUpload s (some f) ft).studyMaterial = some f ∧
          (handleFileUpload s (some f) ft).ankiFile = s.ankiFile))) := by
  cases ft <;> constructor <;> intro h <;>
    simp only [expectedExt] at h <;>
    simp [handleFileUpload, rejectMsg, h]

/-- C5 witness: `deck.txt` is rejected by the deck slot with the stored
selections untouched; `deck.apkg` is accepted and clears the error. -/
theorem c5_witness :
    ((handleFileUpload initialState (some { name := "deck.txt" }) FileType.anki).ankiFile =
       initialState.ankiFile ∧
     (handleFileUpload initialState (some { name := "deck.txt" }) FileType.anki).studyMaterial =
       initialState.studyMaterial ∧
     (handleFileUpload initialState (some { name := "deck.txt" }) FileType.anki).error =
       some (rejectMsg FileType.anki)) ∧
    ((handleFileUpload initialState (some { name := "deck.apkg" }) FileType.anki).error = none ∧
     (handleFileUpload initialState (some { name := "deck.apkg" }) FileType.anki).ankiFile =
       some { name := "deck.apkg" }) :=
  ⟨(c5_file_extension_validation initialState { name := "deck.txt" } FileType.anki).1 (by decide),
   ((c5_file_extension_validation initialState { name := "deck.apkg" } FileType.anki).2
       (by decide)).1,
   (((c5_file_extension_validation initialState { name := "deck.apkg" } FileType.anki).2
       (by decide)).2).1⟩

/-- C6 counterexample to the claim as stated: a FAILED response whose
progress is 100 is captured by the completion branch, so the state shows
success and no error at all; and a FAILED response whose error_message is
present but empty shows the generic fallback instead of the empty
message. -/
theorem c6_counterexample :
    ((pollStep rFailedProgress100 initialState).1.error = none ∧
     (pollStep rFailedProgress100 initialState).1.success =
       some "Processing completed successfully!") ∧
    (pollStep rFailedEmptyMsg initialState).1.error = some "Processing failed" := by
  decide

/-- C6 (amended): a poll-status response with status FAILED that does not
simultaneously signal completion (progress not 100) takes the failed
terminal branch: terminal return, processing cleared, and the displayed
error is the server message verbatim when present and non-empty, the
generic `Processing failed` otherwise. -/
theorem c6_amended_failed_status (s : AppState) (r : StatusResponse)
    (h1 : r.status = some "FAILED")
    (h2 : r.progress_data.bind ProgressData.progress ≠ some (100 : ℚ)) :
    (pollStep r s).2 = true ∧
    (pollStep r s).1.processing = false ∧
    (pollStep r s).1.error =
      some (match r.error_message with
            | some m => if m = "" then "Processing failed" else m
            | none => "Processing failed") := by
  have hnc : ¬(r.status = some "COMPLETED" ∨
      r.progress_data.bind ProgressData.progress = some (100 : ℚ)) := by
    rintro (hs | hp)
    · rw [h1] at hs
      exact absurd hs (by simp)
    · exact h2 hp
  unfold pollStep
  rw [if_neg hnc, if_pos h1]
  exact ⟨rfl, rfl, rfl⟩

/-- C6 witness: the spec's example `bad pdf` is shown verbatim. -/
theorem c6_witness :
    (pollStep rFailedBadPdf initialState).2 = true ∧
    (pollStep rFailedBadPdf initialState).1.processing = false ∧
    (pollStep rFailedBadPdf initialState).1.error = some "bad pdf" := by
  have h := c6_amended_failed_status initialState rFailedBadPdf rfl (by decide)
  refine ⟨h.1, h.2.1, ?_⟩
  rw [h.2.2]
  decide

/-- C7: the tag sanitizer is a character-wise map that keeps every
character of `[a-zA-Z0-9]` and replaces every other character with an
underscore; in particular `My Tag!` becomes `My_Tag_`. -/
theorem c7_tag_sanitizer (s : AppState) (input : String) :
    ((handleTagChange s input).customTag.data.length = input.data.length) ∧
    (∀ i (h : i < input.data.length),
      (handleTagChange s input).customTag.data.getD i 'A' =
        (if isTagChar (input.data[i]) then input.data[i] else '_')) ∧
    ((handleTagChange s "My Tag!").customTag = "My_Tag_") := by
  refine ⟨?_, ?_, ?_⟩
  · show (input.data.map sanitizeChar).length = input.data.length
    simp
  · intro i h
    show (input.data.map sanitizeChar).getD i 'A' = _
    rw [List.getD_eq_getElem?_getD, List.getElem?_map,
        List.getElem?_eq_getElem h]
    rfl
  · show sanitizeTag "My Tag!" = "My_Tag_"
    decide

/-- C7 witness: the sanitized tag at the concrete example input. -/
theorem c7_witness :
    (handleTagChange initialState "My Tag!").customTag.data.getD 2 'A' = '_' ∧
    (handleTagChange initialState "My Tag!").customTag = "My_Tag_" := by
  refine ⟨?_, (c7_tag_sanitizer initialState "My Tag!").2.2⟩
  have h := (c7_tag_sanitizer initialState "My Tag!").2.1 2 (by decide)
  rw [h]
  decide

/-- C8 counterexample to the claim as stated: after a genuinely completed
run in which the user had selected another embedding model, clicking the
reset button does not restore the mount state - the model selection is
preserved. -/
theorem c8_counterexample :
    (runEvents completedRunEvents).success = some "Processing completed successfully!" ∧
    (runEvents completedRunEvents).processing = false ∧
    step (runEvents completedRunEvents) Event.resetClick ≠ initialState := by
  decide

/-- C8 (amended): for every state with the processing flag clear (as after
a completed run), the reset action restores both file selections,
progress, error, success, estimated time, job id, phase, tag prefix,
result data and results visibility to their initial values; the selected
embedding model persists, so the post-reset state equals the mount state
up to the model selection. -/
theorem c8_amended_reset (s : AppState) (h : s.processing = false) :
    ((processAnotherDeck s).selectedModel = s.selectedModel) ∧
    ({ processAnotherDeck s with selectedModel := "text-embedding-3-small" } = initialState) := by
  refine ⟨rfl, ?_⟩
  show ({ initialState with processing := s.processing } : AppState) = initialState
  rw [h]
  rfl

/-- C8 witness: the amended reset property at the concrete completed
run of the counterexample trace. -/
theorem c8_witness :
    ((processAnotherDeck (runEvents completedRunEvents)).selectedModel =
       (runEvents completedRunEvents).selectedModel) ∧
    ({ processAnotherDeck (runEvents completedRunEvents) with
        selectedModel := "text-embedding-3-small" } = initialState) :=
  c8_amended_reset (runEvents completedRunEvents) (by decide)

/-- C9 counterexample to the claim as stated: with an empty input list the
memo returns the empty list before the document point is appended, so no
fixed reference point is plotted. -/
theorem c9_counterexample :
    processedData [] [] = [] ∧ documentPoint [] ∉ processedData [] [] := by
  decide

/-- C9 (amended): the band boundaries are the fixed thresholds 0.8 and
0.5, drawn as the zones 80-100, 50-80 and 0-50 of the axis; every card
point is plotted at `x = y = z = similarity * 100`; and whenever the
input is non-empty the processed data is the mapped cards with the
document reference point (similarity 1, coordinates 100) appended. -/
theorem c9_amended_bands_and_points (data : List DataPoint) (de : List ℚ)
    (h : data ≠ []) :
    referenceAreas =
      [ { x1 := 80, x2 := 100 }, { x1 := 50, x2 := 80 }, { x1 := 0, x2 := 50 } ] ∧
    (∀ p ∈ data, (processPoint p).x = p.similarity * 100 ∧
                 (processPoint p).y = p.similarity * 100 ∧
                 (processPoint p).z = p.similarity * 100) ∧
    processedData data de = data.map processPoint ++ [documentPoint de] ∧
    (documentPoint de).similarity = 1 ∧
    (documentPoint de).x = 100 ∧ (documentPoint de).y = 100 ∧ (documentPoint de).z = 100 := by
  refine ⟨by norm_num [referenceAreas, THRESHOLDS], fun p _ => ⟨rfl, rfl, rfl⟩, ?_,
    rfl, rfl, rfl, rfl⟩
  unfold processedData
  rw [if_neg (by simpa [List.length_eq_zero] using h)]

/-- C9 witness: the amended property at a concrete one-card input. -/
theorem c9_witness :
    processedData [samplePoint] [] = [processPoint samplePoint, documentPoint []] ∧
    (processPoint samplePoint).x = samplePoint.similarity * 100 ∧
    referenceAreas =
      [ { x1 := 80, x2 := 100 }, { x1 := 50, x2 := 80 }, { x1 := 0, x2 := 50 } ] := by
  have h := c9_amended_bands_and_points [samplePoint] [] (by simp)
  exact ⟨by rw [h.2.2.1]; rfl, (h.2.1 samplePoint (by simp)).1, h.1⟩

/-- C10: the tag-prefix invariant - from mount, along every sequence of
events (uploads, keystrokes, model changes, submissions, poll ticks,
resets), the stored tag prefix only ever contains letters, digits and
underscores. -/
theorem c10_tag_invariant (es : List Event) :
    isTagSafe (runEvents es).customTag = true :=
  foldl_preserves_tagSafe es initialState (by decide)

end Ankibyte
